import Mathlib

/-!
# Verification of the county budget analysis system

A shallow embedding of the repository's data model and operations:

* the metric display helpers `formatValue` (components/analysis-module.tsx)
  and `reportFormatValue` (the pdf-generator `generateIntegrityReport`),
* the smart page locator and its fallback ladder (spec §4.2 and
  SMART_PAGE_LOCALIZATION_FIX.md; the python module itself is not in the
  repository snapshot, so it is modelled from the spec),
* the vision-extractor retry policy (spec §4.5),
* the structured fallback parser (spec §4.6),
* the analysis engine's deterministic risk banding (spec §4.7 and the
  workflow document's risk scoring rules),
* the pipeline orchestrator state machine (spec §4.8),
* the API routes `FetchCountyData` and `analyze/gemini` (app/api).
-/

/-! ## String helpers -/

/-- Case-insensitive substring test: `needle` occurs somewhere in `hay`,
both taken verbatim.  Used to model JavaScript's `String.includes` and the
spec's fuzzy substring header matching. -/
def strContainsSub (hay needle : String) : Bool :=
  hay.toList.tails.any (fun t => needle.toList.isPrefixOf t)

/-- Character-wise lower-casing (the ASCII case fold the python `.lower()`
and JavaScript `.toLowerCase()` perform on these inputs). -/
def lowerString (s : String) : String :=
  ⟨s.data.map Char.toLower⟩

/-- Split a character list on a separator character; like
`String.splitOn`, the empty input yields one empty chunk. -/
def splitCharAux (sep : Char) : List Char → List Char → List (List Char)
  | [], acc => [acc.reverse]
  | c :: rest, acc =>
    if c = sep then acc.reverse :: splitCharAux sep rest []
    else splitCharAux sep rest (c :: acc)

/-- The lines of a markdown string (split on `'\n'`). -/
def splitLines (s : String) : List String :=
  (splitCharAux '\n' s.data []).map (fun cs => ⟨cs⟩)

/-- The space-separated words of a string. -/
def splitWords (s : String) : List String :=
  (splitCharAux ' ' s.data []).map (fun cs => ⟨cs⟩)

/-- Normalization of region names per spec §4.1: case-fold and
whitespace-collapse. -/
def normalizeName (s : String) : String :=
  String.intercalate " " (((splitWords s).filter (fun t => !t.isEmpty)).map lowerString)

/-! ## C1: the metric display helpers

`formatValue` appears twice in the repository, with identical bodies:
in `components/analysis-module.tsx` (lines 69-74, the on-screen metric
grid) and inside `generateIntegrityReport` in the pdf generator
(src/unnamed/part_009, lines 10-15).  Both are embedded below. -/

/-- A JavaScript value as it reaches `formatValue`: a number or a string.
`null`/`undefined` are modelled by wrapping in `Option` (both are absent
and behave identically in the code's `value === null || value === undefined`
test). -/
inductive JVal where
  | num (q : ℚ)
  | str (s : String)
deriving DecidableEq

/-- The four syntactically distinct strings `formatValue` can return:
the literal `"Not Found"`, the percent rendering `` `${value}%` ``, the
currency rendering `` `Ksh ${value.toLocaleString()}` ``, and the plain
`String(value)` rendering. -/
inductive Rendered where
  | notFound
  | percent (v : JVal)
  | ksh (q : ℚ)
  | plain (v : JVal)
deriving DecidableEq

/-- The key test `key.includes("pct") || key.includes("rate") ||
key.includes("performance")` shared by both copies of `formatValue`. -/
def keyIsRatio (key : String) : Bool :=
  strContainsSub key "pct" || strContainsSub key "rate" || strContainsSub key "performance"

/-- `formatValue` from components/analysis-module.tsx lines 69-74:

```
const formatValue = (key: string, value: any) => {
  if (value === null || value === undefined || value === 0) return "Not Found"
  if (key.includes("pct") || key.includes("rate") || key.includes("performance")) return `${value}%`
  if (typeof value === "number" && value > 1000) return `Ksh ${value.toLocaleString()}`
  return String(value)
}
``` -/
def formatValue (key : String) (value : Option JVal) : Rendered :=
  match value with
  | none => .notFound
  | some v =>
    if v = JVal.num 0 then .notFound
    else if keyIsRatio key then .percent v
    else
      match v with
      | .num q => if 1000 < q then .ksh q else .plain (.num q)
      | .str s => .plain (.str s)

/-- `formatValue` from the pdf generator `generateIntegrityReport`
(src/unnamed/part_009 lines 10-15); its body is character-for-character the
same as the one in analysis-module.tsx. -/
def reportFormatValue (key : String) (value : Option JVal) : Rendered :=
  match value with
  | none => .notFound
  | some v =>
    if v = JVal.num 0 then .notFound
    else if keyIsRatio key then .percent v
    else
      match v with
      | .num q => if 1000 < q then .ksh q else .plain (.num q)
      | .str s => .plain (.str s)

/-! ## C3/C4: the smart page locator

Modelled from the spec: the python module `smart_page_locator.py` described
by spec §4.2 and by SMART_PAGE_LOCALIZATION_FIX.md is not part of the
repository snapshot; the definitions below follow those documents.  The
constants come from the documents: section length `k = 4` ("Each county
section is consistently 4 pages long"), validation expansion `±2` pages,
brute-force window pages 100-600, default fallback range pages 300-305. -/

/-- A paginated document: total page count and the text of each page
(1-indexed; out-of-range pages read as whatever the supplied function
returns, concrete documents return `""` there). -/
structure Document where
  totalPages : ℕ
  pageText : ℕ → String

/-- The TOC-derived region → start-page map of spec §4.1 (keys stored
normalized).  The static approximate-location fallback table of spec §4.2
step 3 has the same shape. -/
def LayoutIndex : Type := List (String × ℕ)

/-- Fixed per-region section length, the document-wide constant `k`
("4 pages"). -/
def sectionLength : ℕ := 4

/-- Validation expansion step: `±2` pages (spec §4.2 step 2). -/
def expansionStep : ℕ := 2

/-- Mid-document brute-force window: pages 100-600
(SMART_PAGE_LOCALIZATION_FIX.md, "Fallback 2: Brute-force search
(pages 100-600)"). -/
def bruteLo : ℕ := 100

/-- Upper end of the brute-force window. -/
def bruteHi : ℕ := 600

/-- Number of pages in the brute-force window, the documented cap on any
brute-force scan. -/
def bruteWindowCap : ℕ := bruteHi - bruteLo + 1

/-- Default fallback range, pages 300-305
(SMART_PAGE_LOCALIZATION_FIX.md, "Fallback 3: Default range
(pages 300-305)"). -/
def defaultRange : List ℕ := [300, 301, 302, 303, 304, 305]

/-- Resolve a region name in a layout index (names normalized before use
as keys, spec §4.1). -/
def lookupRegion (idx : LayoutIndex) (region : String) : Option ℕ :=
  (idx.find? (fun e => e.1 = normalizeName region)).map (·.2)

/-- The formula-lookup candidate set `{s, s+1, …, s+k}` of spec §4.2
step 1 (`pages = [toc_page, toc_page+1, ..., toc_page+4]`). -/
def sectionRange (s : ℕ) : List ℕ :=
  (List.range (sectionLength + 1)).map (s + ·)

/-- The expected section header `"County Government of {region}"`, with
fuzzy matching done case-insensitively (spec §4.2 step 2). -/
def headerFor (region : String) : String :=
  "county government of " ++ normalizeName region

/-- Does page `p` of `doc` contain the region's section header
(case-insensitive substring test)? -/
def pageHasHeader (doc : Document) (region : String) (p : ℕ) : Bool :=
  strContainsSub (lowerString (doc.pageText p)) (headerFor region)

/-- Validation with symmetric expansion (spec §4.2 step 2): check the
proposed start page first, then the candidates within `±expansionStep`
pages of it, returning the first start page whose text contains the
header. -/
def validateAround (doc : Document) (region : String) (s : ℕ) : Option ℕ :=
  [s, s + 1, s - 1, s + 2, s - 2].find? (pageHasHeader doc region)

/-- Brute-force fallback (spec §4.2 step 4): scan the bounded mid-document
window for the header pattern directly, returning the first page that
matches. -/
def bruteForceSearch (doc : Document) (region : String) : Option ℕ :=
  ((List.range bruteWindowCap).map (bruteLo + ·)).find? (pageHasHeader doc region)

/-- The page locator's only fatal error (spec §4.2 / §7). -/
inductive LocateError where
  | regionNotLocated
deriving DecidableEq

/-- A located page range plus the low-confidence flag that the default
fallback sets (spec §4.2 step 5: "mark the run as low-confidence,
surfaced to the caller via a flag on the result"). -/
structure LocateResult where
  pages : List ℕ
  lowConfidence : Bool
deriving DecidableEq

/-- Steps 4-5 of `locate`: brute-force window scan, then the default
fallback range, failing with `regionNotLocated` only when even the default
range would exceed the document length. -/
def locateBruteOrDefault (doc : Document) (region : String) :
    Except LocateError LocateResult :=
  match bruteForceSearch doc region with
  | some s => .ok ⟨sectionRange s, false⟩
  | none =>
    if defaultRange.all (· ≤ doc.totalPages) then .ok ⟨defaultRange, true⟩
    else .error .regionNotLocated

/-- Step 3 of `locate`: the static approximate-location table, with
validation re-run around its estimate; on failure fall through to the
brute-force / default ladder. -/
def locateStatic (staticTable : LayoutIndex) (doc : Document) (region : String) :
    Except LocateError LocateResult :=
  match lookupRegion staticTable region with
  | some a =>
    match validateAround doc region a with
    | some s => .ok ⟨sectionRange s, false⟩
    | none => locateBruteOrDefault doc region
  | none => locateBruteOrDefault doc region

/-- `locate(layout_index, region_name, document)` of spec §4.2: formula
lookup from the TOC index, validation with `±2` expansion, static-table
fallback, bounded brute-force fallback, default fallback. -/
def locate (idx : LayoutIndex) (staticTable : LayoutIndex) (region : String)
    (doc : Document) : Except LocateError LocateResult :=
  match lookupRegion idx region with
  | some s =>
    match validateAround doc region s with
    | some s' => .ok ⟨sectionRange s', false⟩
    | none => locateStatic staticTable doc region
  | none => locateStatic staticTable doc region

/-! ## C5: the vision extractor retry policy

Modelled from the spec: `ocrflux_client.py` (spec §4.5; workflow document
step 3.1.3 "Handles 503 errors (model loading) with 20s retry") is not in
the repository snapshot.  The external service is an oracle mapping the
attempt number to a response. -/

/-- One response of the external OCR/vision service. -/
inductive SvcResponse where
  | ok (markdown : String) (confidence : ℚ)
  | warmingUp
  | failed
deriving DecidableEq

/-- Is the response a successful extraction? -/
def respOk : SvcResponse → Bool
  | .ok _ _ => true
  | _ => false

/-- Markdown text, confidence in [0,1] and source page of one extraction
(spec §3, ExtractionResult). -/
structure ExtractionResult where
  page : ℕ
  markdown : String
  confidence : ℚ
deriving DecidableEq

/-- Fixed backoff before the single retry, in seconds (spec §4.5:
"retry once after a fixed backoff (e.g. 20s)"). -/
def backoffSeconds : ℕ := 20

/-- Maximum number of calls to the external service per page. -/
def maxAttempts : ℕ := 2

/-- `extract(image)` of spec §4.5 for the page `page`, against the service
oracle `svc` (attempt number → response).  Returns the extraction result,
the number of service calls made, and the list of backoff waits taken.
On a warming-up failure the call is retried exactly once after
`backoffSeconds`; a page that ultimately fails is recorded with empty
markdown and confidence 0. -/
def extract (svc : ℕ → SvcResponse) (page : ℕ) :
    ExtractionResult × ℕ × List ℕ :=
  match svc 0 with
  | .ok md c => (⟨page, md, c⟩, 1, [])
  | .warmingUp =>
    match svc 1 with
    | .ok md c => (⟨page, md, c⟩, 2, [backoffSeconds])
    | _ => (⟨page, "", 0⟩, 2, [backoffSeconds])
  | .failed => (⟨page, "", 0⟩, 1, [])

/-- The extraction result alone, for page `p` against a per-page service
oracle. -/
def extractPage (svc : ℕ → ℕ → SvcResponse) (p : ℕ) : ExtractionResult :=
  (extract (svc p) p).1

/-- Extraction over a whole page list: every page contributes a result,
a failing page is skipped into an empty-markdown result, never fatal
(spec §4.5 / §7 `ExtractionError`). -/
def runExtraction (svc : ℕ → ℕ → SvcResponse) (pages : List ℕ) :
    List ExtractionResult :=
  pages.map (extractPage svc)

/-! ## The structured record and the fallback parser (C8)

Modelled from the spec: `processors/table_parser.py`, the deterministic
rule-based fallback parser of spec §4.6, is not in the repository
snapshot.  The field list follows spec §3 (FinancialRecord) and the
workflow document's extraction schema; every field is `Option ℚ`, `none`
being the explicit "not found" marker — never silently `0`. -/

/-- Typed financial record (spec §3): revenue, expenditure,
debt/liabilities with age-bucketed pending bills, and the health/FIF
payment group.  `none` is the "not found" marker. -/
structure FinancialRecord where
  osrTarget : Option ℚ
  osrActual : Option ℚ
  osrPerformancePct : Option ℚ
  equitableShare : Option ℚ
  totalExpenditure : Option ℚ
  recurrentExpenditure : Option ℚ
  developmentExpenditure : Option ℚ
  devAbsorptionPct : Option ℚ
  overallAbsorptionPct : Option ℚ
  pendingBills : Option ℚ
  underOneYear : Option ℚ
  oneToTwoYears : Option ℚ
  twoToThreeYears : Option ℚ
  overThreeYears : Option ℚ
  shaApproved : Option ℚ
  shaPaid : Option ℚ
  paymentRatePct : Option ℚ
deriving DecidableEq

/-- The all-"not found" record (spec §7: the core returns an all-absent
FinancialRecord rather than failing). -/
def emptyRecord : FinancialRecord :=
  ⟨none, none, none, none, none, none, none, none, none,
   none, none, none, none, none, none, none, none⟩

/-- Digit-and-comma number scanner: consume leading digits, skipping
thousands separators, accumulating the integer value. -/
def takeDigits : List Char → ℕ → ℕ × List Char
  | [], acc => (acc, [])
  | c :: rest, acc =>
    if c.isDigit then takeDigits rest (acc * 10 + (c.toNat - 48))
    else if c = ',' then takeDigits rest acc
    else (acc, c :: rest)

/-- Consume a decimal fraction `.d₁d₂…` after an integer part, returning
its value as a rational. -/
def takeFraction : List Char → ℚ → ℚ → ℚ
  | [], _, acc => acc
  | c :: rest, scale, acc =>
    if c.isDigit then
      takeFraction rest (scale / 10) (acc + scale * (c.toNat - 48))
    else acc

/-- First number appearing in a character list: an integer with optional
thousands separators and an optional decimal part. -/
def firstNumber : List Char → Option ℚ
  | [] => none
  | c :: rest =>
    if c.isDigit then
      let (intPart, remaining) := takeDigits (c :: rest) 0
      match remaining with
      | '.' :: d :: ds =>
        if d.isDigit then
          some ((intPart : ℚ) + takeFraction (d :: ds) (1 / 10) 0)
        else some (intPart : ℚ)
      | _ => some (intPart : ℚ)
    else firstNumber rest

/-- First number on a line of markdown. -/
def numberOn (line : String) : Option ℚ :=
  firstNumber line.toList

/-- Does the (lower-cased) line carry one of the labels? -/
def lineHasLabel (syns : List String) (line : String) : Bool :=
  syns.any (fun syn => strContainsSub (lowerString line) syn)

/-- Fixed pattern/label matching of spec §4.6: scan the lines for the
first one that carries one of the field's label synonyms and holds a
number, and return that number; otherwise the "not found" marker. -/
def findField (ls : List String) (syns : List String) : Option ℚ :=
  (ls.find? (fun l => lineHasLabel syns l && (numberOn l).isSome)).bind numberOn

/-- Label synonyms per field (spec §4.6: "a curated set of label synonyms
per field", e.g. revenue-actual recognized under many label spellings). -/
def osrTargetSyn : List String := ["revenue target", "osr target", "targeted revenue", "annual target"]

/-- Label synonyms for actual own-source revenue. -/
def osrActualSyn : List String := ["actual revenue", "osr actual", "revenue collected", "own source revenue", "own-source revenue"]

/-- Label synonyms for revenue performance. -/
def osrPerformanceSyn : List String := ["revenue performance", "performance rate", "osr performance"]

/-- Label synonyms for the equitable share transfer. -/
def equitableShareSyn : List String := ["equitable share", "equitable-share"]

/-- Label synonyms for total expenditure. -/
def totalExpenditureSyn : List String := ["total expenditure", "overall expenditure", "total spending"]

/-- Label synonyms for recurrent expenditure. -/
def recurrentExpenditureSyn : List String := ["recurrent expenditure", "recurrent spending"]

/-- Label synonyms for development expenditure. -/
def developmentExpenditureSyn : List String := ["development expenditure", "development spending"]

/-- Label synonyms for the development absorption rate. -/
def devAbsorptionSyn : List String := ["development absorption", "dev absorption"]

/-- Label synonyms for the overall absorption rate. -/
def overallAbsorptionSyn : List String := ["overall absorption", "absorption rate"]

/-- Label synonyms for the pending-bills total. -/
def pendingBillsSyn : List String := ["pending bills", "pending bill", "outstanding bills"]

/-- Label synonyms for the under-one-year pending-bill bucket. -/
def underOneYearSyn : List String := ["under 1 year", "less than 1 year", "below 1 year", "under one year"]

/-- Label synonyms for the 1-2 year pending-bill bucket. -/
def oneToTwoYearsSyn : List String := ["1-2 years", "1 to 2 years", "one to two years"]

/-- Label synonyms for the 2-3 year pending-bill bucket. -/
def twoToThreeYearsSyn : List String := ["2-3 years", "2 to 3 years", "two to three years"]

/-- Label synonyms for the over-three-year pending-bill bucket. -/
def overThreeYearsSyn : List String := ["over 3 years", "more than 3 years", "above 3 years", "over three years"]

/-- Label synonyms for the approved FIF/SHA amount. -/
def shaApprovedSyn : List String := ["sha approved", "approved amount", "fif approved"]

/-- Label synonyms for the paid FIF/SHA amount. -/
def shaPaidSyn : List String := ["sha paid", "amount paid", "fif paid"]

/-- Label synonyms for the payment rate. -/
def paymentRateSyn : List String := ["payment rate", "payment-rate"]

/-- The deterministic rule-based fallback parser of spec §4.6: fixed
label matching over the markdown's lines, field by field; a field whose
labels never match is the "not found" marker, never `0`. -/
def fallbackParse (md : String) : FinancialRecord :=
  let ls := splitLines md
  { osrTarget := findField ls osrTargetSyn
    osrActual := findField ls osrActualSyn
    osrPerformancePct := findField ls osrPerformanceSyn
    equitableShare := findField ls equitableShareSyn
    totalExpenditure := findField ls totalExpenditureSyn
    recurrentExpenditure := findField ls recurrentExpenditureSyn
    developmentExpenditure := findField ls developmentExpenditureSyn
    devAbsorptionPct := findField ls devAbsorptionSyn
    overallAbsorptionPct := findField ls overallAbsorptionSyn
    pendingBills := findField ls pendingBillsSyn
    underOneYear := findField ls underOneYearSyn
    oneToTwoYears := findField ls oneToTwoYearsSyn
    twoToThreeYears := findField ls twoToThreeYearsSyn
    overThreeYears := findField ls overThreeYearsSyn
    shaApproved := findField ls shaApprovedSyn
    shaPaid := findField ls shaPaidSyn
    paymentRatePct := findField ls paymentRateSyn }

/-- Running the fallback parser twice on the same markdown (spec §8,
idempotence property): the pair of the two outputs. -/
def parseTwiceOutputs (md : String) : FinancialRecord × FinancialRecord :=
  (fallbackParse md, fallbackParse md)

/-! ## C2: the analysis engine's deterministic risk banding

Modelled from the spec: the analysis stage (`groq_client.py`) is not in
the repository snapshot; the decision table follows spec §4.7 and the
workflow document's "Risk Scoring Rules" (lines 269-272):
High (>70) if OSR < 50%, Dev Absorption < 30%, Pending Bills > 40% of
budget; Moderate (40-70) if OSR 50-70%, Dev Absorption 30-60%;
Low (<40) if OSR > 80%, Absorption > 70%.  Ties/overlaps resolve toward
the higher-risk band (fail-safe bias), realized as priority order
High, then Moderate, then Low, with Moderate as the fail-safe default
when no condition fires (spec §8 scenario C: absent metrics yield
Moderate). -/

/-- The derived metrics the decision table reads (spec §3,
DerivedMetrics): each is absent whenever its inputs are absent,
never treated as zero. -/
structure RiskMetrics where
  revenuePerformance : Option ℚ
  developmentAbsorption : Option ℚ
  pendingBillsPct : Option ℚ
deriving DecidableEq

/-- Risk band of spec §3 (AnalysisResult). -/
inductive RiskBand where
  | high
  | moderate
  | low
deriving DecidableEq

/-- `some v` with `v < x`; an absent metric never fires a condition. -/
def optLt (o : Option ℚ) (x : ℚ) : Bool :=
  match o with
  | some v => decide (v < x)
  | none => false

/-- `some v` with `x < v`; an absent metric never fires a condition. -/
def optGt (o : Option ℚ) (x : ℚ) : Bool :=
  match o with
  | some v => decide (x < v)
  | none => false

/-- `some v` with `lo ≤ v ≤ hi`; an absent metric never fires a
condition. -/
def optBetween (o : Option ℚ) (lo hi : ℚ) : Bool :=
  match o with
  | some v => decide (lo ≤ v) && decide (v ≤ hi)
  | none => false

/-- High-risk condition: revenue-performance < 50% OR
development-absorption < 30% OR pending-bills > 40% of total budget. -/
def highCond (m : RiskMetrics) : Bool :=
  optLt m.revenuePerformance 50 || optLt m.developmentAbsorption 30 ||
    optGt m.pendingBillsPct 40

/-- Moderate-risk condition: revenue-performance 50-70% OR
development-absorption 30-60%. -/
def moderateCond (m : RiskMetrics) : Bool :=
  optBetween m.revenuePerformance 50 70 || optBetween m.developmentAbsorption 30 60

/-- Low-risk condition: revenue-performance > 80% AND absorption > 70%. -/
def lowCond (m : RiskMetrics) : Bool :=
  optGt m.revenuePerformance 80 && optGt m.developmentAbsorption 70

/-- The deterministic decision table of spec §4.7, evaluated on whichever
metrics are present, with the fail-safe bias: conditions are checked from
highest risk downwards, and when nothing fires (absent metrics included)
the band stays Moderate rather than Low. -/
def riskBand (m : RiskMetrics) : RiskBand :=
  if highCond m then .high
  else if moderateCond m then .moderate
  else if lowCond m then .low
  else .moderate

/-- Representative deterministic 0-100 score per band, inside the range
the decision table documents for it (High: score > 70; Moderate: 40-70;
Low: < 40). -/
def riskScore : RiskBand → ℕ
  | .high => 85
  | .moderate => 55
  | .low => 25

/-- DerivedMetrics computation (spec §3 / §4.7): computed only from
present FinancialRecord fields, any metric whose inputs are absent is
itself absent.  Revenue performance prefers the reported ratio and is
otherwise computed from target and actual; pending bills are taken as a
percentage of total expenditure (the budget figure the record carries). -/
def deriveMetrics (r : FinancialRecord) : RiskMetrics :=
  { revenuePerformance :=
      match r.osrPerformancePct with
      | some v => some v
      | none =>
        match r.osrTarget, r.osrActual with
        | some t, some a => if t = 0 then none else some (100 * a / t)
        | _, _ => none
    developmentAbsorption := r.devAbsorptionPct
    pendingBillsPct :=
      match r.pendingBills, r.totalExpenditure with
      | some pb, some te => if te = 0 then none else some (100 * pb / te)
      | _, _ => none }

/-! ## C7: deterministic page ordering

Modelled from the spec: §4.4 and §5 — pages to process are the union of
the region range and the context range, deduplicated, and the final
ExtractionResults are re-sorted by page number before being handed to the
Structured Parser regardless of completion order. -/

/-- Page-number comparison on extraction results. -/
def pageLE (a b : ExtractionResult) : Bool :=
  a.page ≤ b.page

/-- The deduplicated union of the region range and the context range
(spec §4.4: "ascending page number across the union of region range and
context range, deduplicated" — the ascending order is produced by the
re-sort below). -/
def pagesToProcess (regionRange contextRange : List ℕ) : List ℕ :=
  (regionRange ++ contextRange).dedup

/-- The re-sort of spec §5: final ExtractionResults are sorted by page
number before being handed to the Structured Parser. -/
def resortByPage (ers : List ExtractionResult) : List ExtractionResult :=
  ers.mergeSort pageLE

/-! ## C6: the pipeline orchestrator state machine

Modelled from the spec: the orchestrator (`hybrid_processor.py`) is not in
the repository snapshot; the state machine follows spec §4.8:
`LOCATING → RENDERING → EXTRACTING → PARSING → ANALYZING → DONE`, with
`FAILED` terminal and reachable only from `LOCATING` and `RENDERING`. -/

/-- Orchestrator states (spec §4.8). -/
inductive RunState where
  | locating
  | rendering
  | extracting
  | parsing
  | analyzing
  | done
  | failed
deriving DecidableEq

/-- Everything one pipeline run reads: the layout index and static table,
the target region and document, per-page render success, the per-page
extraction service oracle, and the learned primary parser oracle
(`none` models a primary-path failure, spec §4.6). -/
structure PipelineEnv where
  idx : LayoutIndex
  staticTable : LayoutIndex
  region : String
  doc : Document
  renderOk : ℕ → Bool
  svc : ℕ → ℕ → SvcResponse
  primary : String → Option FinancialRecord

/-- The assembled result of one run: the visited states in order, and the
record and risk band when the run completes. -/
structure RunOutcome where
  trace : List RunState
  record : Option FinancialRecord
  band : Option RiskBand
deriving DecidableEq

/-- Concatenated markdown handed to the structured parser (spec §4.6:
"a learned parser is given the concatenated markdown"). -/
def concatMarkdown (ers : List ExtractionResult) : String :=
  String.join (ers.map (·.markdown))

/-- Parser stage (spec §4.6 / §9): the primary learned parser, with the
rule-based fallback triggered when the primary path fails or returns a
record where every field is "not found". -/
def parseStage (primary : String → Option FinancialRecord) (md : String) :
    FinancialRecord :=
  match primary md with
  | some r => if r = emptyRecord then fallbackParse md else r
  | none => fallbackParse md

/-- One orchestrated run (spec §4.8): locate, render, extract, parse,
analyze.  `FAILED` is entered only when the locator exhausts every
fallback (from `LOCATING`) or when zero pages render (from `RENDERING`);
extraction, parsing and analysis degrade gracefully and always reach
`DONE`. -/
def runPipeline (env : PipelineEnv) : RunOutcome :=
  match locate env.idx env.staticTable env.region env.doc with
  | .error _ => ⟨[.locating, .failed], none, none⟩
  | .ok res =>
    match res.pages.filter env.renderOk with
    | [] => ⟨[.locating, .rendering, .failed], none, none⟩
    | p :: ps =>
      let ers := resortByPage (runExtraction env.svc (p :: ps))
      let record := parseStage env.primary (concatMarkdown ers)
      ⟨[.locating, .rendering, .extracting, .parsing, .analyzing, .done],
        some record, some (riskBand (deriveMetrics record))⟩

/-- The state trace of one run. -/
def runTrace (env : PipelineEnv) : List RunState :=
  (runPipeline env).trace

/-! ## C9: the FetchCountyData API route

Embedded from `app/api/FetchCountyData/route.ts`.  Query parameters are
`Option String` (`none` = absent, matching `searchParams.get` returning
`null`); JavaScript's `!x` test on a string is falsy for both `null` and
the empty string. -/

/-- Outcome of the single `fetch` to the external OpenCounty API. -/
inductive FetchOutcome where
  | ok
  | httpError (code : ℕ)
  | networkThrow (msg : String)
deriving DecidableEq

/-- Body of the JSON response the route returns. -/
inductive RouteBody where
  | errorBody (msg : String)
  | successBody
deriving DecidableEq

/-- The route's observable behaviour: HTTP status, number of requests
issued to the external OpenCounty API, and the JSON body shape. -/
structure ApiResponse where
  status : ℕ
  externalCalls : ℕ
  body : RouteBody
deriving DecidableEq

/-- JavaScript falsiness of `searchParams.get(...)`: `null` (absent) and
`""` are both falsy. -/
def isFalsyParam : Option String → Bool
  | none => true
  | some s => s.isEmpty

/-- `GET` of app/api/FetchCountyData/route.ts: missing `county`, `year`
or `category` short-circuits to a 400 JSON error before any external
request; otherwise one request is issued and its failure is mapped to the
status it came with (or 500 when the fetch throws). -/
def fetchCountyDataGET (county year category : Option String)
    (fetchResult : FetchOutcome) : ApiResponse :=
  if isFalsyParam county || isFalsyParam year || isFalsyParam category then
    ⟨400, 0, .errorBody "Missing parameters"⟩
  else
    match fetchResult with
    | .ok => ⟨200, 1, .successBody⟩
    | .httpError c => ⟨c, 1, .errorBody "Failed to fetch from OpenCounty API"⟩
    | .networkThrow msg => ⟨500, 1, .errorBody msg⟩

/-! ## C10: the Gemini analyze API route

Embedded from `app/api/analyze/gemini/route.ts`.  The database is the two
tables the handler touches (`uploads`, `analysis_results`); the SQL
`WHERE upload_id = $1 AND county = $2` comparison follows SQL semantics,
where a comparison against NULL is never true. -/

/-- One `analysis_results` row, with the columns the handler writes. -/
structure AnalysisRow where
  id : ℕ
  uploadId : Option ℕ
  county : String
  year : Option String
  revenue : String
  expenditure : String
  intelligence : String
  summaryText : String
  rawExtracted : String
deriving DecidableEq

/-- One `uploads` row, with the columns the handler reads and writes. -/
structure UploadRow where
  id : ℕ
  filenames : List String
  uploadStatus : String
deriving DecidableEq

/-- The database state the route reads and mutates. -/
structure Db where
  uploads : List UploadRow
  analysis : List AnalysisRow
  nextAnalysisId : ℕ
deriving DecidableEq

/-- The fields of the Python service's successful response that the
handler stores. -/
structure GeminiPayload where
  keyMetrics : String
  intelligence : String
  summaryText : String
  rawExtracted : String
deriving DecidableEq

/-- SQL equality `upload_id = $1`: NULL on either side never compares
equal. -/
def sqlOptEq : Option ℕ → Option ℕ → Bool
  | some a, some b => a == b
  | _, _ => false

/-- `SELECT id FROM uploads WHERE filenames @> '[pdfId]' LIMIT 1`,
then `uploadRes.rows[0]?.id`: the id of the first upload whose filenames
array contains the pdf, `none` when there is no such row. -/
def findUploadId (db : Db) (pdfId : String) : Option ℕ :=
  (db.uploads.find? (fun u => u.filenames.contains pdfId)).map (·.id)

/-- The `UPDATE analysis_results SET revenue = …, expenditure = …,
intelligence = …, summary_text = …, raw_extracted = …, year = …
WHERE id = $7` statement applied to one row: `id`, `upload_id` and
`county` are untouched. -/
def updateAnalysisRow (p : GeminiPayload) (year : Option String)
    (r : AnalysisRow) : AnalysisRow :=
  { r with
    year := year
    revenue := p.keyMetrics
    expenditure := "\x7b\x7d"
    intelligence := p.intelligence
    summaryText := p.summaryText
    rawExtracted := p.rawExtracted }

/-- The `INSERT INTO analysis_results (upload_id, county, year, revenue,
expenditure, intelligence, summary_text, raw_extracted) VALUES …`
statement: a fresh row. -/
def newAnalysisRow (id : ℕ) (uploadId : Option ℕ) (county : String)
    (year : Option String) (p : GeminiPayload) : AnalysisRow :=
  { id := id
    uploadId := uploadId
    county := county
    year := year
    revenue := p.keyMetrics
    expenditure := "\x7b\x7d"
    intelligence := p.intelligence
    summaryText := p.summaryText
    rawExtracted := p.rawExtracted }

/-- `UPDATE uploads SET upload_status = 'completed' WHERE id = $1`,
executed only when `upload_id` resolved. -/
def markUploadCompleted (db : Db) (uploadId : Option ℕ) : Db :=
  match uploadId with
  | some u =>
    { db with
      uploads := db.uploads.map (fun r =>
        if r.id = u then { r with uploadStatus := "completed" } else r) }
  | none => db

/-- `POST` of app/api/analyze/gemini/route.ts.  `pyOk`/`pyStatus` model
the Python service's response; on failure the handler returns that status
without touching the database.  On success it resolves `upload_id` from
the pdf filename, looks for an existing `analysis_results` row with
`upload_id = $1 AND county = $2` (SQL NULL semantics), updates it in
place when found and inserts a fresh row otherwise, then marks the upload
completed. -/
def geminiAnalyzePOST (db : Db) (pdfId county : String) (year : Option String)
    (pyOk : Bool) (pyStatus : ℕ) (p : GeminiPayload) : Db × ℕ :=
  if !pyOk then (db, pyStatus)
  else
    let uploadId := findUploadId db pdfId
    let existing := db.analysis.find?
      (fun r => sqlOptEq r.uploadId uploadId && r.county == county)
    let db1 :=
      match existing with
      | some row =>
        { db with
          analysis := db.analysis.map (fun r =>
            if r.id = row.id then updateAnalysisRow p year r else r) }
      | none =>
        { db with
          analysis := db.analysis ++ [newAnalysisRow db.nextAnalysisId uploadId county year p]
          nextAnalysisId := db.nextAnalysisId + 1 }
    (markUploadCompleted db1 uploadId, 200)

/-- Number of `analysis_results` rows carrying a given
`(upload_id, county)` pair, pairs compared as values (the invariant the
claim is about). -/
def countPair (db : Db) (uploadId : Option ℕ) (county : String) : ℕ :=
  (db.analysis.filter (fun r => r.uploadId == uploadId && r.county == county)).length

/-! ## Concrete fixtures used by witnesses and counterexamples -/

/-- An 800-page document whose page 324 is the Mombasa section start
(spec §8, scenario A). -/
def mombasaDoc : Document :=
  ⟨800, fun p => if p = 324 then "County Government of Mombasa" else ""⟩

/-- A layout index holding the Mombasa TOC entry at page 324. -/
def mombasaIdx : LayoutIndex := [("mombasa", 324)]

/-- An 800-page document with no recognizable headers anywhere. -/
def blankDoc800 : Document := ⟨800, fun _ => ""⟩

/-- A service oracle that is warming up on the first attempt and fails
outright on the retry. -/
def svcWarmThenFail : ℕ → SvcResponse :=
  fun a => if a = 0 then SvcResponse.warmingUp else SvcResponse.failed

/-- A pipeline environment over the Mombasa document in which every
extraction call fails and the learned parser is unavailable
(spec §8, scenario C). -/
def envAllFail : PipelineEnv :=
  { idx := mombasaIdx
    staticTable := []
    region := "Mombasa"
    doc := mombasaDoc
    renderOk := fun _ => true
    svc := fun _ _ => SvcResponse.failed
    primary := fun _ => none }

/-- A fixed Python-service payload. -/
def payload0 : GeminiPayload := ⟨"km", "intel", "summary", "raw"⟩

/-- A database holding one upload (id 5) for the CGBIRR pdf and no
analysis rows yet. -/
def dbOneUpload : Db :=
  ⟨[⟨5, ["CGBIRR August 2025.pdf"], "pending"⟩], [], 1⟩

/-- A database with no uploads at all: the pdf filename will not resolve
to an `upload_id`. -/
def dbNoUploads : Db := ⟨[], [], 1⟩

/-- A service oracle that succeeds immediately on every page. -/
def svcAlwaysOk : ℕ → ℕ → SvcResponse := fun _ _ => SvcResponse.ok "| table |" 1

/-! # Theorems -/

/-- C1 counterexample: the claim says a genuine reported value of `0` is
presented as the number 0 and only absent values as "Not Found"; but both
display helpers render the present value `0` as "Not Found" — at the key
`"osr_actual"` with value `0`, a non-absent value is shown as
"Not Found". -/
theorem c1_zero_shown_as_notFound_counterexample :
    formatValue "osr_actual" (some (JVal.num 0)) = Rendered.notFound ∧
    reportFormatValue "osr_actual" (some (JVal.num 0)) = Rendered.notFound ∧
    (some (JVal.num 0) : Option JVal) ≠ none := by
  refine ⟨rfl, rfl, ?_⟩
  intro h
  exact Option.noConfusion h

/-- C1 (amended): in both the on-screen metric display and the generated
integrity report, a value renders as "Not Found" exactly when it is absent
(null/undefined) **or** equal to the number 0 — so a reported 0 is *not*
distinguishable from absence; every other value renders as a non-"Not
Found" string. -/
theorem c1_notFound_iff_absent_or_zero (key : String) (v : Option JVal) :
    (formatValue key v = Rendered.notFound ↔ v = none ∨ v = some (JVal.num 0)) ∧
    (reportFormatValue key v = Rendered.notFound ↔ v = none ∨ v = some (JVal.num 0)) := by
  cases v with
  | none => simp [formatValue, reportFormatValue]
  | some w =>
    by_cases h0 : w = JVal.num 0
    · subst h0
      simp [formatValue, reportFormatValue]
    · constructor
      · simp only [formatValue, if_neg h0]
        constructor
        · intro h
          by_cases hk : keyIsRatio key
          · simp [hk] at h
          · simp only [hk, if_neg, Bool.false_eq_true, if_false] at h
            rcases w with q | s
            · by_cases hq : (1000 : ℚ) < q
              · simp [hq] at h
              · simp [hq] at h
            · simp at h
        · intro h
          rcases h with h | h
          · exact absurd h (by simp)
          · exact absurd (Option.some.inj h) h0
      · simp only [reportFormatValue, if_neg h0]
        constructor
        · intro h
          by_cases hk : keyIsRatio key
          · simp [hk] at h
          · simp only [hk, if_neg, Bool.false_eq_true, if_false] at h
            rcases w with q | s
            · by_cases hq : (1000 : ℚ) < q
              · simp [hq] at h
              · simp [hq] at h
            · simp at h
        · intro h
          rcases h with h | h
          · exact absurd h (by simp)
          · exact absurd (Option.some.inj h) h0

/-- C8: the fallback (rule-based) parser is idempotent and deterministic —
parsing the same markdown twice yields two identical FinancialRecord
outputs.  In this embedding `fallbackParse` is a pure function of its
input, so the two runs coincide definitionally. -/
theorem c8_fallback_parse_deterministic (md : String) :
    (parseTwiceOutputs md).1 = (parseTwiceOutputs md).2 := rfl

/-- C9: a GET to the FetchCountyData route with `county`, `year` or
`category` absent returns the 400 "Missing parameters" JSON error and
issues no request to the external OpenCounty API, whatever that request
would have returned. -/
theorem c9_missing_params_400_no_fetch (county year category : Option String)
    (fetchResult : FetchOutcome)
    (h : county = none ∨ year = none ∨ category = none) :
    fetchCountyDataGET county year category fetchResult =
      ⟨400, 0, RouteBody.errorBody "Missing parameters"⟩ := by
  rcases h with h | h | h <;> subst h <;>
    simp [fetchCountyDataGET, isFalsyParam]

/-- C9 witness: the route at a concrete request with `county` absent. -/
theorem c9_missing_params_400_no_fetch_witness :
    fetchCountyDataGET none (some "2025") (some "api_budget") FetchOutcome.ok =
      ⟨400, 0, RouteBody.errorBody "Missing parameters"⟩ :=
  c9_missing_params_400_no_fetch none (some "2025") (some "api_budget")
    FetchOutcome.ok (Or.inl rfl)

/-- C5: per-page extraction failure is never fatal.  For every service
oracle and page: at most `maxAttempts` (= 2) calls are made; a
"warming up" first response triggers exactly one retry, after the fixed
`backoffSeconds` (= 20s) wait; a page whose attempts all fail is recorded
as an ExtractionResult with empty markdown and confidence 0; and a run
over any page list produces a result for every page (the run proceeds,
no failure is fatal). -/
theorem c5_retry_once_then_skip (svc : ℕ → SvcResponse) (page : ℕ) :
    (extract svc page).2.1 ≤ maxAttempts ∧
    (svc 0 = SvcResponse.warmingUp →
      (extract svc page).2.1 = 2 ∧ (extract svc page).2.2 = [backoffSeconds]) ∧
    (respOk (svc 0) = false → respOk (svc 1) = false →
      (extract svc page).1 = ⟨page, "", 0⟩) ∧
    (∀ (svcAll : ℕ → ℕ → SvcResponse) (pages : List ℕ),
      (runExtraction svcAll pages).length = pages.length) := by
  refine ⟨?_, ?_, ?_, ?_⟩
  · unfold extract
    cases h0 : svc 0 with
    | ok md c => simp [maxAttempts]
    | warmingUp => cases h1 : svc 1 <;> simp [maxAttempts]
    | failed => simp [maxAttempts]
  · intro hw
    unfold extract
    rw [hw]
    cases h1 : svc 1 <;> simp
  · intro h0f h1f
    unfold extract
    cases h0 : svc 0 with
    | ok md c => rw [h0] at h0f; simp [respOk] at h0f
    | warmingUp =>
      cases h1 : svc 1 with
      | ok md c => rw [h1] at h1f; simp [respOk] at h1f
      | warmingUp => simp
      | failed => simp
    | failed => simp
  · intro svcAll pages
    unfold runExtraction
    exact List.length_map pages (extractPage svcAll)

/-- C5 witness: a service that is warming up on the first attempt and
fails on the retry, at page 7: two calls, one 20-second backoff, and the
empty-markdown confidence-0 result. -/
theorem c5_retry_once_then_skip_witness :
    (extract svcWarmThenFail 7).2.1 = 2 ∧
    (extract svcWarmThenFail 7).2.2 = [backoffSeconds] ∧
    (extract svcWarmThenFail 7).1 = ⟨7, "", 0⟩ :=
  ⟨((c5_retry_once_then_skip svcWarmThenFail 7).2.1 rfl).1,
   ((c5_retry_once_then_skip svcWarmThenFail 7).2.1 rfl).2,
   (c5_retry_once_then_skip svcWarmThenFail 7).2.2.1 rfl rfl⟩

/-- C2: the risk band follows the deterministic decision table of
spec §4.7 with its fail-safe bias.  High when revenue-performance < 50%
or development-absorption < 30% or pending-bills > 40% of budget (score
above 70); Moderate when revenue-performance is 50-70% or absorption is
30-60% and the High condition is unmet (score 40-70); Low only when
revenue-performance > 80% and absorption > 70% and no riskier rule fires
(score below 40).  Overlapping conditions resolve to the higher-risk
band, and each shared boundary value (revenue-performance exactly 50, 70,
80; absorption exactly 30, 60, 70) resolves to the band the table
specifies, never to the lower-risk neighbour. -/
theorem c2_risk_band_decision_table (m : RiskMetrics) :
    (highCond m = true → riskBand m = RiskBand.high ∧ 70 < riskScore (riskBand m)) ∧
    (highCond m = false → moderateCond m = true →
      riskBand m = RiskBand.moderate ∧
      40 ≤ riskScore (riskBand m) ∧ riskScore (riskBand m) ≤ 70) ∧
    (highCond m = false → moderateCond m = false → lowCond m = true →
      riskBand m = RiskBand.low ∧ riskScore (riskBand m) < 40) ∧
    (highCond m = true → moderateCond m = true → riskBand m = RiskBand.high) ∧
    (moderateCond m = true → lowCond m = true → riskBand m ≠ RiskBand.low) ∧
    (riskBand ⟨some 50, some 45, some 10⟩ = RiskBand.moderate ∧
     riskBand ⟨some 70, some 45, some 10⟩ = RiskBand.moderate ∧
     riskBand ⟨some 80, some 75, some 10⟩ = RiskBand.moderate ∧
     riskBand ⟨some 75, some 30, some 10⟩ = RiskBand.moderate ∧
     riskBand ⟨some 75, some 60, some 10⟩ = RiskBand.moderate ∧
     riskBand ⟨some 85, some 70, some 10⟩ = RiskBand.moderate) := by
  refine ⟨?_, ?_, ?_, ?_, ?_, ?_⟩
  · intro hh
    simp [riskBand, hh, riskScore]
  · intro hh hm
    simp [riskBand, hh, hm, riskScore]
  · intro hh hm hl
    simp [riskBand, hh, hm, hl, riskScore]
  · intro hh _
    simp [riskBand, hh]
  · intro hm _
    by_cases hh : highCond m = true
    · simp [riskBand, hh]
    · simp only [Bool.not_eq_true] at hh
      simp [riskBand, hh, hm]
  · refine ⟨?_, ?_, ?_, ?_, ?_, ?_⟩ <;> decide

/-- C2 witness: at revenue-performance 45%, development-absorption 20%
and pending-bills at 50% of budget, the High condition fires and the
band is High with score above 70. -/
theorem c2_risk_band_decision_table_witness :
    riskBand ⟨some 45, some 20, some 50⟩ = RiskBand.high ∧
    70 < riskScore (riskBand ⟨some 45, some 20, some 50⟩) :=
  (c2_risk_band_decision_table ⟨some 45, some 20, some 50⟩).1 (by decide)

/-- C4: when a region resolves in the layout index to start page `s` and
page `s` carries the section header, the formula-lookup step produces
exactly the candidate set `{s, s+1, s+2, s+3, s+4}` and `locate` returns
it. -/
theorem c4_formula_lookup_range (idx staticTable : LayoutIndex) (doc : Document)
    (region : String) (s : ℕ)
    (hlook : lookupRegion idx region = some s)
    (hval : pageHasHeader doc region s = true) :
    sectionRange s = [s, s + 1, s + 2, s + 3, s + 4] ∧
    locate idx staticTable region doc = Except.ok ⟨sectionRange s, false⟩ := by
  constructor
  · simp [sectionRange, sectionLength, List.range_succ]
  · have hv : validateAround doc region s = some s := by
      unfold validateAround
      exact List.find?_cons_of_pos [s + 1, s - 1, s + 2, s - 2] hval
    unfold locate
    rw [hlook]
    simp [hv]

/-- C4 witness: region "Mombasa" with TOC entry at page 324 and section
length 4 yields the PageRange {324, 325, 326, 327, 328}
(spec §8, scenario A). -/
theorem c4_formula_lookup_range_witness :
    locate mombasaIdx [] "Mombasa" mombasaDoc =
      Except.ok ⟨[324, 325, 326, 327, 328], false⟩ := by
  have h := c4_formula_lookup_range mombasaIdx [] mombasaDoc "Mombasa" 324 rfl rfl
  rw [h.2]
  rfl

/-- Every formula-shaped candidate set has exactly `k + 1` pages. -/
theorem sectionRange_length (s : ℕ) :
    (sectionRange s).length = sectionLength + 1 := by
  simp [sectionRange]

set_option maxRecDepth 4000 in
/-- C3 counterexample: the claim bounds every non-brute-force PageRange
by `k + 1` pages, but when every strategy fails the default fallback
returns the fixed six-page range 300-305 — a non-brute-force path whose
size exceeds `k + 1 = 5`. -/
theorem c3_default_range_exceeds_k_plus_one_counterexample :
    locate [] [] "Nowhere" blankDoc800 =
      Except.ok ⟨[300, 301, 302, 303, 304, 305], true⟩ ∧
    ¬ ([300, 301, 302, 303, 304, 305] : List ℕ).length ≤ sectionLength + 1 := by
  exact ⟨by rfl, by decide⟩

set_option maxRecDepth 4000 in
/-- C3 (amended): every PageRange `locate` returns has at most
`k + 2 = 6` pages (`k + 1` on every path except the fixed six-page
default fallback, which is flagged low-confidence), far below the
documented brute-force window cap; a returned range never covers a whole
document longer than six pages; and the only failure is the distinct
`regionNotLocated` error, raised exactly when even the default range
would exceed the document length. -/
theorem c3_page_range_bounded (idx staticTable : LayoutIndex) (region : String)
    (doc : Document) :
    (∀ res, locate idx staticTable region doc = Except.ok res →
      res.pages.length ≤ sectionLength + 2 ∧
      res.pages.length ≤ bruteWindowCap ∧
      (res.lowConfidence = false → res.pages.length = sectionLength + 1) ∧
      (sectionLength + 2 < doc.totalPages → res.pages.length < doc.totalPages)) ∧
    (∀ e, locate idx staticTable region doc = Except.error e →
      e = LocateError.regionNotLocated ∧
      defaultRange.all (· ≤ doc.totalPages) = false) := by
  constructor
  · intro res h
    unfold locate locateStatic locateBruteOrDefault at h
    repeat' split at h
    all_goals cases h
    all_goals simp only [sectionRange_length, defaultRange, List.length_cons,
      List.length_nil, bruteWindowCap, bruteLo, bruteHi, sectionLength]
    all_goals refine ⟨by omega, by omega, ?_, by omega⟩
    all_goals intro hlc
    all_goals first
      | rfl
      | trivial
  · intro e h
    unfold locate locateStatic locateBruteOrDefault at h
    repeat' split at h
    all_goals cases h
    all_goals refine ⟨rfl, ?_⟩
    all_goals simp_all

/-- C3 witness: on the Mombasa document the located range has 5 pages —
at most `k + 2`, below the 501-page brute-force window cap, exactly
`k + 1` since it is not low-confidence, and smaller than the 800-page
document. -/
theorem c3_page_range_bounded_witness :
    (5 : ℕ) ≤ sectionLength + 2 ∧ (5 : ℕ) ≤ bruteWindowCap ∧ (5 : ℕ) < 800 := by
  have h := (c3_page_range_bounded mombasaIdx [] "Mombasa" mombasaDoc).1
    ⟨[324, 325, 326, 327, 328], false⟩ (by rfl)
  exact ⟨h.1, h.2.1, h.2.2.2 (by decide)⟩

/-- A page all of whose service attempts fail is recorded with empty
markdown. -/
theorem extract_fail_markdown (svc : ℕ → SvcResponse) (page : ℕ)
    (h : ∀ a, respOk (svc a) = false) :
    (extract svc page).1.markdown = "" := by
  unfold extract
  cases h0 : svc 0 with
  | ok md c =>
    have hx := h 0
    rw [h0] at hx
    simp [respOk] at hx
  | warmingUp =>
    cases h1 : svc 1 with
    | ok md c =>
      have hx := h 1
      rw [h1] at hx
      simp [respOk] at hx
    | warmingUp => rfl
    | failed => rfl
  | failed => rfl

/-- Folding string concatenation over a list of empty strings leaves the
accumulator unchanged. -/
theorem foldl_append_all_empty (l : List String) (acc : String)
    (h : ∀ x ∈ l, x = "") :
    l.foldl (fun r s => r ++ s) acc = acc := by
  induction l generalizing acc with
  | nil => rfl
  | cons a t ih =>
    have ha : a = "" := h a (by simp)
    simp only [List.foldl_cons, ha, String.append_empty]
    exact ih acc (fun x hx => h x (by simp [hx]))

/-- Joining a list of empty strings yields the empty string. -/
theorem join_all_empty (l : List String) (h : ∀ x ∈ l, x = "") :
    String.join l = "" :=
  foldl_append_all_empty l "" h

/-- The fallback parser finds nothing in empty markdown: every field is
the "not found" marker. -/
theorem fallbackParse_empty_markdown : fallbackParse "" = emptyRecord := rfl

/-- On the all-absent record every derived metric is absent, no decision
rule fires, and the fail-safe band is Moderate. -/
theorem riskBand_emptyRecord :
    riskBand (deriveMetrics emptyRecord) = RiskBand.moderate := rfl

/-- C6: the orchestrator's terminal `FAILED` state is reachable only from
`LOCATING` or from `RENDERING`: every run trace is one of
`[LOCATING, FAILED]`, `[LOCATING, RENDERING, FAILED]` or the full
successful trace ending in `DONE`, so `EXTRACTING`, `PARSING` and
`ANALYZING` never step to `FAILED`; and a run in which every extraction
call fails (and the learned parser is unavailable) that reaches the
successful trace completes with the all-"not found" FinancialRecord and
the Moderate band, not `FAILED`. -/
theorem c6_failed_only_from_locating_or_rendering (env : PipelineEnv) :
    (runTrace env = [RunState.locating, RunState.failed] ∨
     runTrace env = [RunState.locating, RunState.rendering, RunState.failed] ∨
     runTrace env = [RunState.locating, RunState.rendering, RunState.extracting,
       RunState.parsing, RunState.analyzing, RunState.done]) ∧
    (RunState.failed ∈ runTrace env →
      runTrace env = [RunState.locating, RunState.failed] ∨
      runTrace env = [RunState.locating, RunState.rendering, RunState.failed]) ∧
    ((∀ p a, respOk (env.svc p a) = false) → (∀ s, env.primary s = none) →
      runTrace env = [RunState.locating, RunState.rendering, RunState.extracting,
        RunState.parsing, RunState.analyzing, RunState.done] →
      (runPipeline env).record = some emptyRecord ∧
      (runPipeline env).band = some RiskBand.moderate) := by
  have tri : runTrace env = [RunState.locating, RunState.failed] ∨
      runTrace env = [RunState.locating, RunState.rendering, RunState.failed] ∨
      runTrace env = [RunState.locating, RunState.rendering, RunState.extracting,
        RunState.parsing, RunState.analyzing, RunState.done] := by
    unfold runTrace runPipeline
    rcases hloc : locate env.idx env.staticTable env.region env.doc with e | res
    · left
      simp [hloc]
    · rcases hfil : res.pages.filter env.renderOk with _ | ⟨p, ps⟩
      · right; left
        simp [hloc, hfil]
      · right; right
        simp [hloc, hfil]
  refine ⟨tri, ?_, ?_⟩
  · intro hmem
    rcases tri with h | h | h
    · exact Or.inl h
    · exact Or.inr h
    · rw [h] at hmem
      exact absurd hmem (by decide)
  · intro hall hprim htrace
    unfold runTrace runPipeline at htrace
    unfold runPipeline
    rcases hloc : locate env.idx env.staticTable env.region env.doc with e | res
    · rw [hloc] at htrace
      simp at htrace
    · rw [hloc] at htrace
      dsimp only at htrace ⊢
      rcases hfil : res.pages.filter env.renderOk with _ | ⟨p, ps⟩
      · rw [hfil] at htrace
        simp at htrace
      · dsimp only
        have hmd : concatMarkdown (resortByPage (runExtraction env.svc (p :: ps))) = "" := by
          unfold concatMarkdown
          apply join_all_empty
          intro s hs
          rcases List.mem_map.mp hs with ⟨er, her, rfl⟩
          have her2 : er ∈ runExtraction env.svc (p :: ps) :=
            (List.mergeSort_perm (runExtraction env.svc (p :: ps)) pageLE).mem_iff.mp her
          unfold runExtraction at her2
          rcases List.mem_map.mp her2 with ⟨q, _, rfl⟩
          exact extract_fail_markdown (env.svc q) q (fun a => hall q a)
        have hps : parseStage env.primary
            (concatMarkdown (resortByPage (runExtraction env.svc (p :: ps)))) = emptyRecord := by
          rw [hmd]
          unfold parseStage
          rw [hprim ""]
          exact fallbackParse_empty_markdown
        simp only [hps, riskBand_emptyRecord]
        exact ⟨trivial, trivial⟩

/-- C6 witness: in the Mombasa environment where every extraction call
fails outright and the learned parser is unavailable, the run still
completes (trace ends in DONE) with the all-"not found" record and the
Moderate band. -/
theorem c6_failed_only_from_locating_or_rendering_witness :
    (runPipeline envAllFail).record = some emptyRecord ∧
    (runPipeline envAllFail).band = some RiskBand.moderate :=
  (c6_failed_only_from_locating_or_rendering envAllFail).2.2
    (fun _ _ => rfl) (fun _ => rfl) (by rfl)

/-- Every extraction result carries the page number it was extracted
from. -/
theorem extractPage_page (svc : ℕ → ℕ → SvcResponse) (p : ℕ) :
    (extractPage svc p).page = p := by
  unfold extractPage extract
  cases svc p 0 with
  | ok md c => rfl
  | warmingUp => cases svc p 1 <;> rfl
  | failed => rfl

/-- The page numbers of a run's extraction results are exactly the pages
it was asked to process, in order. -/
theorem runExtraction_map_page (svc : ℕ → ℕ → SvcResponse) (l : List ℕ) :
    (runExtraction svc l).map (·.page) = l := by
  unfold runExtraction
  rw [List.map_map]
  have : (fun p => (extractPage svc p).page) = id := by
    funext p
    exact extractPage_page svc p
  simp only [Function.comp_def, extractPage_page, List.map_id']

/-- `pageLE` is transitive. -/
theorem pageLE_trans (a b c : ExtractionResult) :
    pageLE a b → pageLE b c → pageLE a c := by
  simp only [pageLE, decide_eq_true_eq]
  omega

/-- `pageLE` is total. -/
theorem pageLE_total (a b : ExtractionResult) :
    pageLE a b || pageLE b a := by
  simp only [pageLE]
  by_cases h : a.page ≤ b.page
  · simp [h]
  · simp [h]
    omega

/-- The re-sorted results are pairwise ordered by `pageLE`. -/
theorem resortByPage_pairwise (l : List ExtractionResult) :
    (resortByPage l).Pairwise (fun a b => pageLE a b = true) :=
  List.sorted_mergeSort pageLE_trans pageLE_total l

/-- The re-sort is a permutation of its input. -/
theorem resortByPage_perm (l : List ExtractionResult) :
    (resortByPage l).Perm l :=
  List.mergeSort_perm l pageLE

/-- Two result lists that are permutations of each other with pairwise
distinct page numbers re-sort to the same list. -/
theorem resortByPage_eq_of_perm (l₁ l₂ : List ExtractionResult)
    (hp : l₁.Perm l₂) (hn : (l₁.map (·.page)).Nodup) :
    resortByPage l₁ = resortByPage l₂ := by
  have hAnti : IsAntisymm ExtractionResult
      (fun a b => a.page < b.page ∨ a = b) := by
    constructor
    intro a b hab hba
    rcases hab with h | h
    · rcases hba with h2 | h2
      · omega
      · exact h2.symm
    · exact h
  have sortedStrict : ∀ (l : List ExtractionResult),
      (l.map (·.page)).Nodup →
      (resortByPage l).Pairwise (fun a b => a.page < b.page ∨ a = b) := by
    intro l hnd
    have hle := resortByPage_pairwise l
    have hndr : ((resortByPage l).map (·.page)).Nodup := by
      have hpm : ((resortByPage l).map (·.page)).Perm (l.map (·.page)) :=
        (resortByPage_perm l).map (·.page)
      exact hpm.nodup_iff.mpr hnd
    have hne : (resortByPage l).Pairwise (fun a b => a.page ≠ b.page) :=
      List.pairwise_map.mp hndr
    have := hle.and hne
    apply this.imp
    intro a b hab
    left
    simp only [pageLE, decide_eq_true_eq] at hab
    omega
  have hn₂ : (l₂.map (·.page)).Nodup := (hp.map (·.page)).nodup_iff.mp hn
  have hperm : (resortByPage l₁).Perm (resortByPage l₂) :=
    ((resortByPage_perm l₁).trans hp).trans (resortByPage_perm l₂).symm
  exact List.eq_of_perm_of_sorted hperm (sortedStrict l₁ hn) (sortedStrict l₂ hn₂)

/-- C7: regardless of the completion order of per-page work — any
permutation of the deduplicated union of the region range and the context
range — the ExtractionResults handed to the Structured Parser are sorted
in ascending page order, cover exactly that deduplicated union, and are
the same list that the canonical order produces. -/
theorem c7_results_resorted_by_page (svc : ℕ → ℕ → SvcResponse)
    (regionRange contextRange completionOrder : List ℕ)
    (hperm : completionOrder.Perm (pagesToProcess regionRange contextRange)) :
    ((resortByPage (runExtraction svc completionOrder)).map (·.page)).Sorted (· ≤ ·) ∧
    ((resortByPage (runExtraction svc completionOrder)).map (·.page)).Perm
      (pagesToProcess regionRange contextRange) ∧
    resortByPage (runExtraction svc completionOrder) =
      resortByPage (runExtraction svc (pagesToProcess regionRange contextRange)) := by
  refine ⟨?_, ?_, ?_⟩
  · have hle := resortByPage_pairwise (runExtraction svc completionOrder)
    have := List.pairwise_map.mpr
      (hle.imp (fun hab => by
        simp only [pageLE, decide_eq_true_eq] at hab
        exact hab))
    exact this
  · have h1 : ((resortByPage (runExtraction svc completionOrder)).map (·.page)).Perm
        ((runExtraction svc completionOrder).map (·.page)) :=
      (resortByPage_perm (runExtraction svc completionOrder)).map (·.page)
    rw [runExtraction_map_page] at h1
    exact h1.trans hperm
  · apply resortByPage_eq_of_perm
    · unfold runExtraction
      exact hperm.map (extractPage svc)
    · rw [runExtraction_map_page]
      have hd : (pagesToProcess regionRange contextRange).Nodup := by
        unfold pagesToProcess
        exact List.nodup_dedup _
      exact hperm.nodup_iff.mpr hd

/-- C7 witness: region range {324, 325} and context range {45, 324}, with
per-page work completing in the order 45, 325, 324: the handed-over
results are page-sorted and identical to the canonical-order run. -/
theorem c7_results_resorted_by_page_witness :
    ((resortByPage (runExtraction svcAlwaysOk [45, 325, 324])).map (·.page)).Sorted (· ≤ ·) ∧
    resortByPage (runExtraction svcAlwaysOk [45, 325, 324]) =
      resortByPage (runExtraction svcAlwaysOk (pagesToProcess [324, 325] [45, 324])) :=
  ⟨(c7_results_resorted_by_page svcAlwaysOk [324, 325] [45, 324] [45, 325, 324]
      (by decide)).1,
   (c7_results_resorted_by_page svcAlwaysOk [324, 325] [45, 324] [45, 325, 324]
      (by decide)).2.2⟩

/-- Against a resolved (non-NULL) upload id, the SQL comparison agrees
with plain value equality of the pair component. -/
theorem sqlOptEq_some (o : Option ℕ) (u : ℕ) :
    sqlOptEq o (some u) = (o == some u) := by
  cases o <;> rfl

/-- Filtering a mapped list whose mapping preserves the predicate keeps
the filtered length. -/
theorem filter_length_map_congr {α : Type} (g : α → α) (pred : α → Bool)
    (hpg : ∀ r, pred (g r) = pred r) (l : List α) :
    ((l.map g).filter pred).length = (l.filter pred).length := by
  induction l with
  | nil => rfl
  | cons a t ih =>
    simp only [List.map_cons, List.filter_cons, hpg a]
    cases pred a <;> simp [ih]

/-- `find?` over a mapped list whose mapping preserves the predicate is
the mapped `find?`. -/
theorem find?_map_congr {α : Type} (g : α → α) (pred : α → Bool)
    (hpg : ∀ r, pred (g r) = pred r) (l : List α) :
    (l.map g).find? pred = (l.find? pred).map g := by
  induction l with
  | nil => rfl
  | cons a t ih =>
    simp only [List.map_cons, List.find?_cons, hpg a]
    cases pred a <;> simp [ih]

/-- Marking an upload completed never changes the analysis table. -/
theorem markUploadCompleted_analysis (db : Db) (o : Option ℕ) :
    (markUploadCompleted db o).analysis = db.analysis := by
  cases o <;> rfl

/-- Marking an upload completed only rewrites `upload_status`, so the
filename lookup of the upload id is unchanged. -/
theorem findUploadId_markCompleted (db : Db) (o : Option ℕ) (pdfId : String) :
    findUploadId (markUploadCompleted db o) pdfId = findUploadId db pdfId := by
  cases o with
  | none => rfl
  | some u =>
    unfold findUploadId markUploadCompleted
    rw [find?_map_congr (fun r => if r.id = u then { r with uploadStatus := "completed" } else r)
      (fun r => r.filenames.contains pdfId)
      (fun r => by
        show (if r.id = u then { r with uploadStatus := "completed" } else r).filenames.contains pdfId
          = r.filenames.contains pdfId
        split <;> rfl)
      db.uploads]
    rw [Option.map_map]
    congr 1
    funext r
    show (if r.id = u then { r with uploadStatus := "completed" } else r).id = r.id
    split <;> rfl

/-- C10 counterexample: with no matching uploads row the handler binds
`upload_id` to NULL; the SQL lookup `upload_id = $1` never matches NULL,
so two successive identical successful POSTs insert two
`analysis_results` rows for the same (NULL upload_id, county) pair. -/
theorem c10_null_upload_duplicate_counterexample :
    countPair
      ((geminiAnalyzePOST
        ((geminiAnalyzePOST dbNoUploads "CGBIRR August 2025.pdf" "Mombasa"
          (some "2025") true 0 payload0).1)
        "CGBIRR August 2025.pdf" "Mombasa" (some "2025") true 0 payload0).1)
      none "Mombasa" = 2 := by
  rfl

/-- C10 (amended): whenever the pdf filename resolves to an uploads row
(so `upload_id` is non-NULL), a successful POST preserves at-most-one
`analysis_results` row per (upload_id, county) pair: an existing row is
updated in place, otherwise exactly one row is inserted, the pdf still
resolves to the same upload id afterwards, and a request against a pair
that already has its row adds no row — so repeats never create a second
row.  (When the filename does not resolve, `upload_id` is NULL, the SQL
equality never matches and each repeat inserts anew; see the
counterexample.) -/
theorem c10_upsert_preserves_uniqueness (db : Db) (pdfId county : String)
    (year : Option String) (pyStatus : ℕ) (p : GeminiPayload) (uid : ℕ)
    (hu : findUploadId db pdfId = some uid)
    (hcount : countPair db (some uid) county ≤ 1) :
    ∀ db2 code, geminiAnalyzePOST db pdfId county year true pyStatus p = (db2, code) →
      code = 200 ∧
      countPair db2 (some uid) county = 1 ∧
      findUploadId db2 pdfId = some uid ∧
      db2.analysis.length ≤ db.analysis.length + 1 ∧
      (countPair db (some uid) county = 1 →
        db2.analysis.length = db.analysis.length) := by
  intro db2 code h
  unfold geminiAnalyzePOST at h
  rw [hu] at h
  simp only [Bool.not_true, Bool.false_eq_true, if_false] at h
  rw [show (fun r : AnalysisRow => sqlOptEq r.uploadId (some uid) && r.county == county) =
      (fun r : AnalysisRow => r.uploadId == some uid && r.county == county) from
    funext (fun r => by rw [sqlOptEq_some])] at h
  rcases hfind : db.analysis.find?
      (fun r => r.uploadId == some uid && r.county == county) with _ | row
  · rw [hfind] at h
    injection h with h1 h2
    subst h1
    subst h2
    have hnone := List.find?_eq_none.mp hfind
    have hfil : db.analysis.filter
        (fun r => r.uploadId == some uid && r.county == county) = [] := by
      rw [List.filter_eq_nil_iff]
      exact hnone
    have hnew : ((fun r : AnalysisRow => r.uploadId == some uid && r.county == county)
        (newAnalysisRow db.nextAnalysisId (some uid) county year p)) = true := by
      simp [newAnalysisRow]
    refine ⟨rfl, ?_, ?_, ?_, ?_⟩
    · unfold countPair
      rw [markUploadCompleted_analysis]
      show ((db.analysis ++ [newAnalysisRow db.nextAnalysisId (some uid) county year p]).filter
        (fun r => r.uploadId == some uid && r.county == county)).length = 1
      rw [List.filter_append, hfil]
      simp [hnew]
    · rw [findUploadId_markCompleted]
      exact hu
    · rw [markUploadCompleted_analysis]
      simp
    · intro hc
      unfold countPair at hc
      rw [hfil] at hc
      simp at hc
  · rw [hfind] at h
    injection h with h1 h2
    subst h1
    subst h2
    have hgp : ∀ r : AnalysisRow,
        ((fun r : AnalysisRow => r.uploadId == some uid && r.county == county)
          (if r.id = row.id then updateAnalysisRow p year r else r)) =
        ((fun r : AnalysisRow => r.uploadId == some uid && r.county == county) r) := by
      intro r
      split <;> rfl
    have hmem := List.mem_of_find?_eq_some hfind
    have hpred := List.find?_some hfind
    have hrowfil : row ∈ db.analysis.filter
        (fun r => r.uploadId == some uid && r.county == county) :=
      List.mem_filter.mpr ⟨hmem, hpred⟩
    have hpos : 0 < (db.analysis.filter
        (fun r => r.uploadId == some uid && r.county == county)).length :=
      List.length_pos.mpr (List.ne_nil_of_mem hrowfil)
    have hcone : countPair db (some uid) county = 1 := by
      unfold countPair at hcount ⊢
      omega
    refine ⟨rfl, ?_, ?_, ?_, ?_⟩
    · unfold countPair
      rw [markUploadCompleted_analysis]
      show ((db.analysis.map (fun r =>
        if r.id = row.id then updateAnalysisRow p year r else r)).filter
          (fun r => r.uploadId == some uid && r.county == county)).length = 1
      rw [filter_length_map_congr _ _ hgp]
      exact hcone
    · rw [findUploadId_markCompleted]
      exact hu
    · rw [markUploadCompleted_analysis]
      simp
    · intro _
      rw [markUploadCompleted_analysis]
      simp

/-- C10 witness: with the pdf registered as upload 5, the first POST
inserts exactly one row for (5, "Mombasa"), and an identical repeat POST
leaves one row and adds none. -/
theorem c10_upsert_preserves_uniqueness_witness :
    countPair (geminiAnalyzePOST dbOneUpload "CGBIRR August 2025.pdf" "Mombasa"
      (some "2025") true 0 payload0).1 (some 5) "Mombasa" = 1 ∧
    countPair (geminiAnalyzePOST
      (geminiAnalyzePOST dbOneUpload "CGBIRR August 2025.pdf" "Mombasa"
        (some "2025") true 0 payload0).1
      "CGBIRR August 2025.pdf" "Mombasa" (some "2025") true 0 payload0).1
      (some 5) "Mombasa" = 1 ∧
    (geminiAnalyzePOST
      (geminiAnalyzePOST dbOneUpload "CGBIRR August 2025.pdf" "Mombasa"
        (some "2025") true 0 payload0).1
      "CGBIRR August 2025.pdf" "Mombasa" (some "2025") true 0 payload0).1.analysis.length =
    (geminiAnalyzePOST dbOneUpload "CGBIRR August 2025.pdf" "Mombasa"
      (some "2025") true 0 payload0).1.analysis.length := by
  have h1 := c10_upsert_preserves_uniqueness dbOneUpload "CGBIRR August 2025.pdf"
    "Mombasa" (some "2025") 0 payload0 5 (by rfl) (by decide)
    (geminiAnalyzePOST dbOneUpload "CGBIRR August 2025.pdf" "Mombasa"
      (some "2025") true 0 payload0).1
    (geminiAnalyzePOST dbOneUpload "CGBIRR August 2025.pdf" "Mombasa"
      (some "2025") true 0 payload0).2
    rfl
  have h2 := c10_upsert_preserves_uniqueness
    (geminiAnalyzePOST dbOneUpload "CGBIRR August 2025.pdf" "Mombasa"
      (some "2025") true 0 payload0).1
    "CGBIRR August 2025.pdf" "Mombasa" (some "2025") 0 payload0 5
    h1.2.2.1 (le_of_eq h1.2.1)
    (geminiAnalyzePOST
      (geminiAnalyzePOST dbOneUpload "CGBIRR August 2025.pdf" "Mombasa"
        (some "2025") true 0 payload0).1
      "CGBIRR August 2025.pdf" "Mombasa" (some "2025") true 0 payload0).1
    (geminiAnalyzePOST
      (geminiAnalyzePOST dbOneUpload "CGBIRR August 2025.pdf" "Mombasa"
        (some "2025") true 0 payload0).1
      "CGBIRR August 2025.pdf" "Mombasa" (some "2025") true 0 payload0).2
    rfl
  exact ⟨h1.2.1, h2.2.1, h2.2.2.2.2 h1.2.1⟩
